import Mathlib

/-!
Verification of the package-assembly and dependency-finalization engine of
melange (`pkg/build/package.go`), as a shallow embedding in Lean 4.

Pure logic (string manipulation, list merging, conditional rendering) is
translated directly from the Go source.  External collaborators (the SCA
analyzer, the tar writer, gzip, SHA-256, the signer) are abstracted as
opaque function parameters, since only the plumbing between them lives in
this file's scope.  Definitions marked `Modelled from the spec:` stand for
melange code that is outside `pkg/build/package.go` (e.g. `util.Dedup`,
`config.Dependencies.Summarize`, the tarball writer's remap application).
-/

namespace Melange

/-- The unversioned name of a dependency entry: the substring before the
first `=`, i.e. Go `strings.Split(versionedDep, "=")[0]`. -/
def unversioned (s : String) : String :=
  String.mk (s.data.takeWhile (fun c => c ≠ '='))

/-- Embeds `config.Dependencies` — the four ordered-but-deduplicated dependency
collections plus the provider priority (zero-value = unset, which is falsy
for the Go template). -/
structure Dependencies where
  runtime : List String
  provides : List String
  replaces : List String
  vendored : List String
  providerPriority : Nat
  deriving Repr, DecidableEq

/-- Modelled from the spec: `util.Dedup` (pkg/util, not under src/) —
the dependency collections are "ordered-but-deduplicated", so duplicates
are dropped keeping the first occurrence. -/
def dedup (xs : List String) : List String :=
  xs.foldl (fun acc x => if acc.contains x then acc else acc ++ [x]) []

/-- Modelled from the spec: `config.Dependencies.Summarize` (pkg/config,
not under src/) — "a final summarize pass normalizes ordering/format of
the sets (sorting, canonicalization) before serialization".  Modelled as
sorting each collection; membership is unchanged. -/
def summarize (d : Dependencies) : Dependencies :=
  { d with
    runtime := d.runtime.insertionSort (· ≤ ·)
    provides := d.provides.insertionSort (· ≤ ·)
    replaces := d.replaces.insertionSort (· ≤ ·)
    vendored := d.vendored.insertionSort (· ≤ ·) }

/-- Embeds `removeSelfProvidedDeps` (package.go lines 277–296): removes runtime
dependencies which are provided by the package itself.  Each provided dep
is reduced to its unversioned name (`strings.Split(dep, "=")[0]`) to build
the lookup map; each runtime dep is then looked up *as written* (it is not
split) and dropped on a hit. -/
def removeSelfProvidedDeps (runtimeDeps providedDeps : List String) : List String :=
  let providedDepsMap := providedDeps.map unversioned
  runtimeDeps.filter (fun dep => !providedDepsMap.contains dep)

/-- The dependency-finalization core of `GenerateDependencies`
(package.go lines 325–344), as a function of the declared dependency sets
and the analyzer's discovered (`generated`) sets:
1. `unvendored` = discovered runtime deps not self-provided by the
   discovered vendored deps (declared runtime deps bypass this filter);
2. runtime = dedup(declared runtime ++ unvendored);
3. provides = dedup(declared provides ++ discovered provides);
4. runtime = removeSelfProvidedDeps(runtime, provides);
5. vendored = dedup(discovered vendored);
6. a final Summarize pass. -/
def generateDependenciesCore (declared generated : Dependencies) : Dependencies :=
  let unvendored := removeSelfProvidedDeps generated.runtime generated.vendored
  let newruntime := declared.runtime ++ unvendored
  let runtime1 := dedup newruntime
  let newprovides := declared.provides ++ generated.provides
  let provides1 := dedup newprovides
  let runtime2 := removeSelfProvidedDeps runtime1 provides1
  summarize { declared with
    runtime := runtime2
    provides := provides1
    vendored := dedup generated.vendored }

/-- The dependency-discovery logging step of `GenerateDependencies`
(package.go lines 310–323), with the analyzer's success assumed (the
analyzer is an external collaborator; `generated` is its result) and the
two file-system outcomes as booleans: `openOk` is whether `os.Create` of
the log file succeeds, `encodeOk` whether the json encoder's write into a
successfully opened file succeeds.  When `os.Create` fails the code only
logs a warning and continues with a nil `logFile`; the subsequent
`json.NewEncoder(logFile).Encode(&generated)` then writes to the nil
`*os.File`, which fails with `os.ErrInvalid` ("invalid argument"), and
that error is returned (line 321).  An encode failure on a valid file is
returned directly by the same line. -/
def generateDependencies (declared generated : Dependencies)
    (dependencyLog : String) (openOk encodeOk : Bool) :
    Except String Dependencies :=
  if dependencyLog ≠ "" then
    if !openOk then
      Except.error "invalid argument"
    else if !encodeOk then
      Except.error "encode failed"
    else
      Except.ok (generateDependenciesCore declared generated)
  else
    Except.ok (generateDependenciesCore declared generated)

/-- Embeds `config.Scriptlets.Trigger`: the trigger script body and paths. -/
structure TriggerScriptlet where
  script : String
  paths : List String
  deriving Repr, DecidableEq

/-- Embeds `config.Scriptlets`: the seven scriptlet bodies. -/
structure Scriptlets where
  trigger : TriggerScriptlet
  preInstall : String
  postInstall : String
  preDeinstall : String
  postDeinstall : String
  preUpgrade : String
  postUpgrade : String
  deriving Repr, DecidableEq

/-- Embeds `PackageBuild` (package.go lines 65–80), with the fields of the
embedded `Build`/`Origin` that package.go reads inlined:
`sourceDateEpoch` is `Build.SourceDateEpoch.Unix()`, `signingKey` is
`Build.SigningKey`, `createBuildLog` is `Build.CreateBuildLog`,
`dependencyLog` is `Build.DependencyLog`, `version`/`epoch`/`copyrights`
come from `Origin`. -/
structure PackageBuild where
  packageName : String
  originName : String
  version : String
  epoch : Nat
  arch : String
  installedSize : Int
  dataHash : String
  outDir : String
  dependencies : Dependencies
  scriptlets : Scriptlets
  description : String
  url : String
  commit : String
  sourceDateEpoch : Int
  copyrights : List String
  signingKey : String
  createBuildLog : Bool
  dependencyLog : String
  deriving Repr, DecidableEq

/-- One line of the rendered `.PKGINFO`: either a `#`-comment or a
`key = value` field, mirroring one line of `controlTemplate`
(package.go lines 147–181). -/
inductive ControlLine where
  | comment (text : String)
  | field (key value : String)
  deriving Repr, DecidableEq

/-- Renders one `.PKGINFO` line the way the template does. -/
def renderControlLine : ControlLine → String
  | ControlLine.comment t => "# " ++ t
  | ControlLine.field k v => k ++ " = " ++ v

/-- The key of a field line (`none` for comments). -/
def fieldKey : ControlLine → Option String
  | ControlLine.comment _ => none
  | ControlLine.field k _ => some k

/-- Whether a `.PKGINFO` line is a field line with the given key. -/
def hasKey (k : String) : ControlLine → Bool
  | ControlLine.comment _ => false
  | ControlLine.field k' _ => k' == k

/-- The template writes each trigger path followed by a space:
`{{ range $item := .Scriptlets.Trigger.Paths }}{{ $item }} {{ end }}`. -/
def spaceJoin (xs : List String) : String :=
  String.join (xs.map (fun x => x ++ " "))

/-- The `.PKGINFO` document produced by `controlTemplate`
(package.go lines 147–181), line by line and in template order:
fixed header fields, then `builddate` iff `SourceDateEpoch.Unix != 0`,
one `license` line per copyright entry, one `depend`/`provides`/
`replaces` line per dependency entry, one `# vendored` comment per
vendored entry, `provider_priority` iff the value is truthy (non-zero),
`triggers` iff trigger paths exist, and `datahash` last. -/
def controlFields (pc : PackageBuild) : List ControlLine :=
  [ControlLine.comment "Generated by melange.",
   ControlLine.field "pkgname" pc.packageName,
   ControlLine.field "pkgver" (pc.version ++ "-r" ++ toString pc.epoch),
   ControlLine.field "arch" pc.arch,
   ControlLine.field "size" (toString pc.installedSize),
   ControlLine.field "origin" pc.originName,
   ControlLine.field "pkgdesc" pc.description,
   ControlLine.field "url" pc.url,
   ControlLine.field "commit" pc.commit]
  ++ (if pc.sourceDateEpoch ≠ 0 then
        [ControlLine.field "builddate" (toString pc.sourceDateEpoch)] else [])
  ++ pc.copyrights.map (fun c => ControlLine.field "license" c)
  ++ pc.dependencies.runtime.map (fun d => ControlLine.field "depend" d)
  ++ pc.dependencies.provides.map (fun d => ControlLine.field "provides" d)
  ++ pc.dependencies.replaces.map (fun d => ControlLine.field "replaces" d)
  ++ pc.dependencies.vendored.map (fun d => ControlLine.comment ("vendored = " ++ d))
  ++ (if pc.dependencies.providerPriority ≠ 0 then
        [ControlLine.field "provider_priority" (toString pc.dependencies.providerPriority)]
      else [])
  ++ (if pc.scriptlets.trigger.paths ≠ [] then
        [ControlLine.field "triggers" (spaceJoin pc.scriptlets.trigger.paths)]
      else [])
  ++ [ControlLine.field "datahash" pc.dataHash]

/-- Embeds `GenerateControlData` (package.go lines 183–186): the rendered
`.PKGINFO` text — the template's lines joined by newlines, with the
template's trailing newline. -/
def generateControlData (pc : PackageBuild) : String :=
  String.intercalate "\n" ((controlFields pc).map renderControlLine) ++ "\n"

/-- The control-section in-memory filesystem built by
`generateControlSection` (package.go lines 200–257): `.PKGINFO` always,
plus one executable file per non-empty scriptlet body, as
(name, contents) pairs in the order the source writes them. -/
def controlFS (pc : PackageBuild) : List (String × String) :=
  [(".PKGINFO", generateControlData pc)]
  ++ (if pc.scriptlets.trigger.script ≠ "" then
        [(".trigger", pc.scriptlets.trigger.script)] else [])
  ++ (if pc.scriptlets.preInstall ≠ "" then
        [(".pre-install", pc.scriptlets.preInstall)] else [])
  ++ (if pc.scriptlets.postInstall ≠ "" then
        [(".post-install", pc.scriptlets.postInstall)] else [])
  ++ (if pc.scriptlets.preDeinstall ≠ "" then
        [(".pre-deinstall", pc.scriptlets.preDeinstall)] else [])
  ++ (if pc.scriptlets.postDeinstall ≠ "" then
        [(".post-deinstall", pc.scriptlets.postDeinstall)] else [])
  ++ (if pc.scriptlets.preUpgrade ≠ "" then
        [(".pre-upgrade", pc.scriptlets.preUpgrade)] else [])
  ++ (if pc.scriptlets.postUpgrade ≠ "" then
        [(".post-upgrade", pc.scriptlets.postUpgrade)] else [])

/-- Embeds `generateControlSection` (package.go lines 188–270): the control
filesystem serialized to a gzip-compressed tar stream; the serializer
(`tarball.WriteTar` + gzip, both external) is abstracted as `gz`. -/
def generateControlSection (gz : List (String × String) → List Nat)
    (pc : PackageBuild) : List Nat :=
  gz (controlFS pc)

/-- The kind of a directory entry seen by the `fs.WalkDir` walk. -/
inductive FileKind where
  | regular
  | directory
  | symlink
  | other
  deriving Repr, DecidableEq

/-- One entry visited by `fs.WalkDir` over the staged tree: its path, the
size reported by `d.Info()` (`fi.Size()`), and its kind. -/
structure WalkEntry where
  path : String
  size : Int
  kind : FileKind
  deriving Repr, DecidableEq

/-- Embeds `calculateInstalledSize` (package.go lines 358–376): the walk callback
adds `fi.Size()` of *every* visited entry — of any kind — onto
`pc.InstalledSize`. -/
def calculateInstalledSize (pc : PackageBuild) (tree : List WalkEntry) :
    PackageBuild :=
  tree.foldl (fun acc e => { acc with installedSize := acc.installedSize + e.size }) pc

/-- The installed size as the spec describes it, for comparison with
`calculateInstalledSize`: "sum of regular file sizes in the staged tree",
non-regular entries contributing nothing. -/
def specInstalledSize (tree : List WalkEntry) : Int :=
  ((tree.filter (fun e => e.kind == FileKind.regular)).map (fun e => e.size)).sum

/-- Embeds `apko_types.User`: the fields package.go reads. -/
structure User where
  userName : String
  uid : Nat
  deriving Repr, DecidableEq

/-- Embeds `apko_types.Group`: the fields package.go reads. -/
structure Group where
  groupName : String
  gid : Nat
  deriving Repr, DecidableEq

/-- The loop of `EmitPackage` (package.go lines 472–476) extracting the
build user: starts from the zero value (`var buildUser apko_types.User`,
i.e. empty name and UID 0) and assigns every account named "build", so
the last match (or the zero value when there is none) remains. -/
def findBuildUser (users : List User) : User :=
  users.foldl (fun acc u => if u.userName = "build" then u else acc) ⟨"", 0⟩

/-- The loop of `EmitPackage` (package.go lines 478–482) extracting the
build group, symmetric to `findBuildUser`. -/
def findBuildGroup (groups : List Group) : Group :=
  groups.foldl (fun acc g => if g.groupName = "build" then g else acc) ⟨"", 0⟩

/-- The uid remap table built in `EmitPackage` (lines 465–487):
`remapUIDs[int(buildUser.UID)] = 0` — a single-entry map. -/
def buildRemapUIDs (users : List User) : List (Nat × Nat) :=
  [((findBuildUser users).uid, 0)]

/-- The gid remap table built in `EmitPackage` (lines 465–487):
`remapGIDs[int(buildGroup.GID)] = 0` — a single-entry map. -/
def buildRemapGIDs (groups : List Group) : List (Nat × Nat) :=
  [((findBuildGroup groups).gid, 0)]

/-- Modelled from the spec: the tarball writer (external) applies a remap
table to every entry's numeric owner id — a mapped id is replaced, any
other id is emitted unchanged. -/
def applyRemap (table : List (Nat × Nat)) (id : Nat) : Nat :=
  match table.lookup id with
  | some v => v
  | none => id

/-- The options given to `tarball.NewContext` (external), as a record:
which of the fixed timestamp, O(1) ownership override, remap tables,
per-entry checksums and close suppression each call site requests. -/
structure TarContextOpts where
  sourceDateEpoch : Int
  overrideUIDGID : Option (Nat × Nat)
  overrideUname : String
  overrideGname : String
  remapUIDs : List (Nat × Nat)
  remapGIDs : List (Nat × Nat)
  useChecksums : Bool
  skipClose : Bool
  deriving Repr, DecidableEq

/-- The tar context of `generateControlSection` (package.go lines
189–195): fixed timestamp, ownership overridden to 0/0 root/root,
skip-close; no remap tables, no per-entry checksums. -/
def controlTarOpts (sourceDateEpoch : Int) : TarContextOpts :=
  { sourceDateEpoch := sourceDateEpoch
    overrideUIDGID := some (0, 0)
    overrideUname := "root"
    overrideGname := "root"
    remapUIDs := []
    remapGIDs := []
    useChecksums := false
    skipClose := true }

/-- The tar context of `emitDataSection` (package.go lines 380–385):
fixed timestamp, the uid/gid remap tables, per-entry checksums; no
ownership override, no skip-close. -/
def dataTarOpts (sourceDateEpoch : Int) (remapUIDs remapGIDs : List (Nat × Nat)) :
    TarContextOpts :=
  { sourceDateEpoch := sourceDateEpoch
    overrideUIDGID := none
    overrideUname := ""
    overrideGname := ""
    remapUIDs := remapUIDs
    remapGIDs := remapGIDs
    useChecksums := true
    skipClose := false }

/-- Embeds `min` (package.go lines 57–63). -/
def min (l r : Int) : Int :=
  if l < r then l
  else r

/-- Embeds `pgzipThreads` (package.go line 55): `min(runtime.GOMAXPROCS(0), 8)`,
a package-level variable computed once per process; the ambient
`GOMAXPROCS(0)` value is the parameter. -/
def pgzipThreads (gomaxprocs : Int) : Int :=
  min gomaxprocs 8

/-- The pair handed to the data-section compressor. -/
structure ConcurrencySettings where
  blockSize : Nat
  threads : Int
  deriving Repr, DecidableEq

/-- The compressor tuning of `emitDataSection` (package.go line 393):
`zw.SetConcurrency(1<<20, pgzipThreads)`. -/
def emitDataSectionConcurrency (gomaxprocs : Int) : ConcurrencySettings :=
  { blockSize := 1 <<< 20, threads := pgzipThreads gomaxprocs }

/-- Embeds `emitDataSection` (package.go lines 378–413), with the external tar
serialization already abstracted into `dataTar` (the uncompressed tar
stream of the staged tree) and pgzip abstracted as `compress`.  The
compressed stream is written through `io.MultiWriter(digest, w)`, so the
SHA-256 digest (here the abstract `hash`, standing for
`hex.EncodeToString(sha256(...))`) is computed over exactly the bytes
written out for the data section, and `pc.DataHash` is set from it. -/
def emitDataSection (hash : List Nat → String) (compress : List Nat → List Nat)
    (dataTar : List Nat) (pc : PackageBuild) : PackageBuild × List Nat :=
  let dataBytes := compress dataTar
  ({ pc with dataHash := hash dataBytes }, dataBytes)

/-- Embeds `wantSignature` (package.go lines 415–417). -/
def wantSignature (pc : PackageBuild) : Bool :=
  pc.signingKey != ""

/-- The result of `EmitPackage`: the final `PackageBuild` state, the
ordered list of sections handed to `combine` (the `combinedParts`
`[]io.Reader` slice), the bytes written to the destination `.apk` file,
and the tar-context options used for the data section. -/
structure EmitResult where
  pc : PackageBuild
  sections : List (List Nat)
  artifact : List Nat
  dataOpts : TarContextOpts
  deriving Repr, DecidableEq

/-- Embeds `EmitPackage` (package.go lines 419–532), success path, with the
external collaborators abstracted: `hash` for hex-encoded SHA-256,
`compress` for pgzip, `gz` for the control section's tar+gzip
serialization, `sign` for `EmitSignature` (a detached signature over
given bytes at a given timestamp), `generated` for the analyzer result
consumed by `GenerateDependencies`, `tree` for the staged-tree walk,
`users`/`groups` for the guest environment's account list, and `dataTar`
for the tar serialization of the staged tree.  The sequence mirrors the
source: dependencies are finalized, the installed size accumulated, the
remap tables built from the "build" account, the data section emitted
(setting `DataHash`), the control section generated from the resulting
state, and the final artifact is the concatenation
signature-if-wanted ++ control ++ data. -/
def emitPackage (hash : List Nat → String) (compress : List Nat → List Nat)
    (gz : List (String × String) → List Nat) (sign : List Nat → Int → List Nat)
    (generated : Dependencies) (tree : List WalkEntry)
    (users : List User) (groups : List Group)
    (dataTar : List Nat) (pc : PackageBuild) : EmitResult :=
  let pc1 := { pc with dependencies := generateDependenciesCore pc.dependencies generated }
  let pc2 := calculateInstalledSize pc1 tree
  let remapUIDs := buildRemapUIDs users
  let remapGIDs := buildRemapGIDs groups
  let emitted := emitDataSection hash compress dataTar pc2
  let pc3 := emitted.1
  let dataBytes := emitted.2
  let controlSectionData := generateControlSection gz pc3
  let combinedParts := [controlSectionData, dataBytes]
  let allParts :=
    if wantSignature pc3 then
      sign controlSectionData pc3.sourceDateEpoch :: combinedParts
    else
      combinedParts
  { pc := pc3
    sections := allParts
    artifact := allParts.flatten
    dataOpts := dataTarOpts pc3.sourceDateEpoch remapUIDs remapGIDs }

/-- A file-system operation performed by `AppendBuildLog`. -/
inductive FileOp where
  | openAppendCreate (path : String)
  | write (content : String)
  deriving Repr, DecidableEq

/-- Go `filepath.Join(dir, file)` for the shapes used here: the empty
directory yields the file name alone, otherwise the two are joined with a
separator. -/
def filepathJoin (dir file : String) : String :=
  if dir = "" then file else dir ++ "/" ++ file

/-- Embeds `AppendBuildLog` (package.go lines 118–133): a no-op unless
`CreateBuildLog` is set; otherwise opens `packages.log` in `dir` with
append|create|wronly and performs one `WriteString` of the
pipe-delimited line `arch|originName|packageName|version-rEpoch\n`.
`openOk`/`writeOk` are whether the open and the write succeed; an open
failure is returned before any write. -/
def appendBuildLog (pc : PackageBuild) (dir : String) (openOk writeOk : Bool) :
    List FileOp × Except String Unit :=
  if !pc.createBuildLog then
    ([], Except.ok ())
  else
    let path := filepathJoin dir "packages.log"
    if !openOk then
      ([FileOp.openAppendCreate path], Except.error "open failed")
    else
      let line := pc.arch ++ "|" ++ pc.originName ++ "|" ++ pc.packageName ++ "|"
        ++ pc.version ++ "-r" ++ toString pc.epoch ++ "\n"
      ([FileOp.openAppendCreate path, FileOp.write line],
       if writeOk then Except.ok () else Except.error "write failed")

/-- A concrete `PackageBuild` used as the base point of the witnesses. -/
def samplePB : PackageBuild where
  packageName := "hello"
  originName := "hello"
  version := "1.0"
  epoch := 0
  arch := "x86_64"
  installedSize := 0
  dataHash := ""
  outDir := "out"
  dependencies := ⟨[], [], [], [], 0⟩
  scriptlets := ⟨⟨"", []⟩, "", "", "", "", "", ""⟩
  description := "sample"
  url := ""
  commit := ""
  sourceDateEpoch := 0
  copyrights := []
  signingKey := ""
  createBuildLog := true
  dependencyLog := ""

/-! ## Helper lemmas -/

theorem mem_foldl_dedup (xs : List String) (y : String) :
    ∀ acc : List String,
      (y ∈ xs.foldl (fun acc x => if acc.contains x then acc else acc ++ [x]) acc
        ↔ y ∈ acc ∨ y ∈ xs) := by
  induction xs with
  | nil => intro acc; simp
  | cons x xs ih =>
      intro acc
      rw [List.foldl_cons, ih]
      by_cases hx : x ∈ acc
      · simp only [List.mem_cons]
        rw [if_pos (by simpa using hx)]
        constructor
        · rintro (h | h) <;> tauto
        · rintro (h | rfl | h) <;> simp_all
      · simp only [List.mem_cons]
        rw [if_neg (by simpa using hx)]
        simp only [List.mem_append, List.mem_singleton]
        tauto

theorem mem_dedup {xs : List String} {y : String} : y ∈ dedup xs ↔ y ∈ xs := by
  unfold dedup
  rw [mem_foldl_dedup]
  simp

theorem mem_summarize_runtime {d : Dependencies} {y : String} :
    y ∈ (summarize d).runtime ↔ y ∈ d.runtime := by
  simp [summarize, List.mem_insertionSort]

theorem mem_summarize_provides {d : Dependencies} {y : String} :
    y ∈ (summarize d).provides ↔ y ∈ d.provides := by
  simp [summarize, List.mem_insertionSort]

theorem countP_map_zero {α : Type} (p : ControlLine → Bool) (f : α → ControlLine)
    (l : List α) (h : ∀ a, p (f a) = false) :
    List.countP p (l.map f) = 0 := by
  induction l with
  | nil => rfl
  | cons a t ih => simp [List.countP_cons, h, ih]

theorem mem_map_fst_ite {β : Type} (x : String) (c : Prop) [Decidable c]
    (p : String × β) :
    (x ∈ List.map Prod.fst (if c then [p] else [])) ↔ (c ∧ x = p.1) := by
  split_ifs with h <;> simp [h]

theorem calculateInstalledSize_eq (pc : PackageBuild) (tree : List WalkEntry) :
    calculateInstalledSize pc tree
      = { pc with installedSize := pc.installedSize + (tree.map WalkEntry.size).sum } := by
  induction tree generalizing pc with
  | nil => simp [calculateInstalledSize]
  | cons e t ih =>
      show calculateInstalledSize { pc with installedSize := pc.installedSize + e.size } t = _
      rw [ih]
      simp [add_assoc]

/-! ## Claims -/

/-- C1 counterexample: the claimed invariant — no final Runtime entry's
unversioned name may appear among the unversioned final Provides names —
fails on declared Runtime `["foo=1.0"]` with discovered Provides
`["foo=1.0"]`: the runtime entry is compared as written, `"foo=1.0"` is
not the unversioned provides name `"foo"`, so it survives in the final
Runtime set even though its unversioned name is provided. -/
theorem runtime_unversioned_self_provided_counterexample :
    "foo=1.0" ∈ (generateDependenciesCore
        ⟨["foo=1.0"], [], [], [], 0⟩ ⟨[], ["foo=1.0"], [], [], 0⟩).runtime
    ∧ unversioned "foo=1.0"
        ∈ (generateDependenciesCore
            ⟨["foo=1.0"], [], [], [], 0⟩ ⟨[], ["foo=1.0"], [], [], 0⟩).provides.map
            unversioned := by
  decide

/-- C1 (amended): the final Runtime set never contains an entry that,
*as written*, equals the unversioned name of some entry of the final
merged Provides set (runtime entries are not themselves split at `=`);
in particular declared Runtime `["foo"]` with discovered Provides
`["foo=1.0"]` yields an empty final Runtime. -/
theorem runtime_excludes_self_provided (declared generated : Dependencies)
    (r : String)
    (hr : r ∈ (generateDependenciesCore declared generated).runtime) :
    r ∉ ((generateDependenciesCore declared generated).provides.map unversioned) := by
  intro habs
  unfold generateDependenciesCore at hr habs
  rw [mem_summarize_runtime] at hr
  simp only [removeSelfProvidedDeps, List.mem_filter] at hr
  have hprov : r ∈ (dedup (declared.provides ++ generated.provides)).map unversioned := by
    rcases List.mem_map.mp (by
      simpa [summarize, List.map_map] using habs) with ⟨p, hp, hpr⟩
    exact List.mem_map.mpr ⟨p, by simpa [List.mem_insertionSort] using hp, hpr⟩
  have hno := hr.2
  simp only [List.contains, Bool.not_eq_eq_eq_not, Bool.not_true, List.elem_eq_mem,
    decide_eq_false_iff_not] at hno
  exact hno hprov

/-- Witness for C1's amended theorem at a concrete input. -/
theorem runtime_excludes_self_provided_witness :
    "bar" ∉ ((generateDependenciesCore
        ⟨["bar"], [], [], [], 0⟩ ⟨[], [], [], [], 0⟩).provides.map unversioned) :=
  runtime_excludes_self_provided
    ⟨["bar"], [], [], [], 0⟩ ⟨[], [], [], [], 0⟩ "bar" (by decide)

/-- C3 counterexample: the claimed dropping condition — a discovered
Runtime entry is dropped when its *unversioned* name appears among the
unversioned Vendored names — fails on discovered Runtime
`["libbar.so=1.0"]` with discovered Vendored `["libbar.so=2.0"]`: the
unversioned names match (`"libbar.so"`), yet the entry is compared as
written against the unversioned vendored names, does not match, and
survives into the final Runtime set. -/
theorem vendored_filter_unversioned_counterexample :
    unversioned "libbar.so=1.0"
        ∈ (["libbar.so=2.0"].map unversioned)
    ∧ "libbar.so=1.0"
        ∈ (generateDependenciesCore ⟨[], [], [], [], 0⟩
            ⟨["libbar.so=1.0"], [], [], ["libbar.so=2.0"], 0⟩).runtime := by
  decide

/-- C3 (amended): only discovered Runtime entries are filtered against
the discovered Vendored names, and an entry is dropped when the entry
*as written* appears among the unversioned Vendored names:
(a) a declared Runtime entry always survives into the final Runtime set
unless excluded by the merged Provides names — the vendored filter never
touches it; (b) any final Runtime entry that equals an unversioned
Vendored name must come from the declared set; (c) discovered Runtime
`["libbar.so"]` with Vendored `["libbar.so=2.0"]` is dropped, while the
same entry declared statically survives. -/
theorem vendored_filter_only_discovered :
    (∀ declared generated : Dependencies, ∀ r : String,
      r ∈ declared.runtime →
      r ∉ ((dedup (declared.provides ++ generated.provides)).map unversioned) →
      r ∈ (generateDependenciesCore declared generated).runtime)
    ∧ (∀ declared generated : Dependencies, ∀ g : String,
      g ∈ (generated.vendored.map unversioned) →
      g ∈ (generateDependenciesCore declared generated).runtime →
      g ∈ declared.runtime)
    ∧ (generateDependenciesCore ⟨[], [], [], [], 0⟩
        ⟨["libbar.so"], [], [], ["libbar.so=2.0"], 0⟩).runtime = []
    ∧ (generateDependenciesCore ⟨["libbar.so"], [], [], [], 0⟩
        ⟨[], [], [], ["libbar.so=2.0"], 0⟩).runtime = ["libbar.so"] := by
  refine ⟨?_, ?_, by decide, by decide⟩
  · intro declared generated r hdecl hnp
    unfold generateDependenciesCore
    rw [mem_summarize_runtime]
    simp only [removeSelfProvidedDeps, List.mem_filter]
    refine ⟨mem_dedup.mpr (List.mem_append.mpr (Or.inl hdecl)), ?_⟩
    simp only [List.contains, Bool.not_eq_eq_eq_not, Bool.not_true, List.elem_eq_mem,
      decide_eq_false_iff_not]
    exact hnp
  · intro declared generated g hv hr
    unfold generateDependenciesCore at hr
    rw [mem_summarize_runtime] at hr
    simp only [removeSelfProvidedDeps, List.mem_filter] at hr
    rcases List.mem_append.mp (mem_dedup.mp hr.1) with hd | hu
    · exact hd
    · exfalso
      have hgen := (List.mem_filter.mp hu).2
      simp only [List.contains, Bool.not_eq_eq_eq_not, Bool.not_true, List.elem_eq_mem,
        decide_eq_false_iff_not] at hgen
      exact hgen hv

/-- Witness for C3's amended theorem at a concrete input: the declared
entry `"baz"` survives even though it equals an unversioned Vendored
name. -/
theorem vendored_filter_only_discovered_witness :
    "baz" ∈ (generateDependenciesCore ⟨["baz"], [], [], [], 0⟩
        ⟨[], [], [], ["baz=9.0"], 0⟩).runtime :=
  vendored_filter_only_discovered.1
    ⟨["baz"], [], [], [], 0⟩ ⟨[], [], [], ["baz=9.0"], 0⟩ "baz"
    (by decide) (by decide)

/-- C4 (the claim is right, the code is wrong): a dependency-discovery
log failure aborts `GenerateDependencies` instead of merely warning.
When `os.Create` of the log fails the code logs a warning but then
encodes into the nil `*os.File`, whose write fails with `os.ErrInvalid`,
and line 321 returns that error; an encode/write failure on a valid log
file is returned by the same line.  Either way `GenerateDependencies`
returns an error — package emission aborts (EmitPackage wraps it at line
438) — where the spec says emission proceeds with a warning. -/
theorem dependency_log_failure_aborts :
    generateDependencies ⟨[], [], [], [], 0⟩ ⟨[], [], [], [], 0⟩
        "deps.log" false true = Except.error "invalid argument"
    ∧ generateDependencies ⟨[], [], [], [], 0⟩ ⟨[], [], [], [], 0⟩
        "deps.log" true false = Except.error "encode failed"
    ∧ generateDependencies ⟨[], [], [], [], 0⟩ ⟨[], [], [], [], 0⟩
        "" false false
        = Except.ok (generateDependenciesCore ⟨[], [], [], [], 0⟩ ⟨[], [], [], [], 0⟩) := by
  refine ⟨rfl, rfl, rfl⟩

/-- C5 counterexample: `calculateInstalledSize` adds the reported size of
*every* walked entry, so a tree holding one directory entry of size 4096,
one symlink of size 7 and one regular file of size 3 yields InstalledSize
4106, not the claimed regular-files-only sum 3. -/
theorem calculateInstalledSize_counterexample :
    (calculateInstalledSize samplePB
        [⟨".", 4096, FileKind.directory⟩,
         ⟨"./link", 7, FileKind.symlink⟩,
         ⟨"./a", 3, FileKind.regular⟩]).installedSize = 4106
    ∧ specInstalledSize
        [⟨".", 4096, FileKind.directory⟩,
         ⟨"./link", 7, FileKind.symlink⟩,
         ⟨"./a", 3, FileKind.regular⟩] = 3
    ∧ (4106 : Int) ≠ 3 := by
  refine ⟨by decide, by decide, by decide⟩

/-- C5 (amended): `calculateInstalledSize` adds onto `InstalledSize` the
sum of the sizes reported by the walk for *all* visited entries —
regular files, directories, symlinks alike — still with no contribution
from archive or compression overhead (only `fi.Size()` values are
summed). -/
theorem calculateInstalledSize_sums_all_entries (pc : PackageBuild)
    (tree : List WalkEntry) :
    (calculateInstalledSize pc tree).installedSize
      = pc.installedSize + (tree.map WalkEntry.size).sum := by
  rw [calculateInstalledSize_eq]

theorem emitPackage_pc_eq (hash : List Nat → String) (compress : List Nat → List Nat)
    (gz : List (String × String) → List Nat) (sign : List Nat → Int → List Nat)
    (generated : Dependencies) (tree : List WalkEntry)
    (users : List User) (groups : List Group)
    (dataTar : List Nat) (pc : PackageBuild) :
    (emitPackage hash compress gz sign generated tree users groups dataTar pc).pc
      = { pc with
          dependencies := generateDependenciesCore pc.dependencies generated
          installedSize := pc.installedSize + (tree.map WalkEntry.size).sum
          dataHash := hash (compress dataTar) } := by
  simp [emitPackage, emitDataSection, calculateInstalledSize_eq]

theorem emitPackage_sections_eq (hash : List Nat → String) (compress : List Nat → List Nat)
    (gz : List (String × String) → List Nat) (sign : List Nat → Int → List Nat)
    (generated : Dependencies) (tree : List WalkEntry)
    (users : List User) (groups : List Group)
    (dataTar : List Nat) (pc : PackageBuild) :
    (emitPackage hash compress gz sign generated tree users groups dataTar pc).sections
      = (if wantSignature (emitPackage hash compress gz sign generated tree users groups dataTar pc).pc then
          [sign (generateControlSection gz
              (emitPackage hash compress gz sign generated tree users groups dataTar pc).pc)
            (emitPackage hash compress gz sign generated tree users groups dataTar pc).pc.sourceDateEpoch]
         else [])
        ++ [generateControlSection gz
              (emitPackage hash compress gz sign generated tree users groups dataTar pc).pc,
            compress dataTar] := by
  have hunfold :
      (emitPackage hash compress gz sign generated tree users groups dataTar pc).sections
        = (if wantSignature (emitPackage hash compress gz sign generated tree users groups dataTar pc).pc then
            sign (generateControlSection gz
                (emitPackage hash compress gz sign generated tree users groups dataTar pc).pc)
              (emitPackage hash compress gz sign generated tree users groups dataTar pc).pc.sourceDateEpoch
              :: [generateControlSection gz
                    (emitPackage hash compress gz sign generated tree users groups dataTar pc).pc,
                  compress dataTar]
          else
            [generateControlSection gz
                (emitPackage hash compress gz sign generated tree users groups dataTar pc).pc,
              compress dataTar]) := rfl
  rw [hunfold]
  by_cases h :
    wantSignature (emitPackage hash compress gz sign generated tree users groups dataTar pc).pc
  · rw [if_pos h, if_pos h]
    rfl
  · rw [if_neg h, if_neg h]
    rfl

/-- C2: after the data section is emitted, `DataHash` equals the (abstract
hex-encoded SHA-256) digest of the exact compressed bytes written for the
data segment — the digest and the output writer are fed via one
`io.MultiWriter`, so they see identical bytes — and `EmitPackage` emits
the data section before rendering the control section, so the `datahash`
field embedded in `.PKGINFO` (the final control field) equals the digest
of the data-section bytes of the final artifact. -/
theorem emitPackage_datahash_binds_control_to_data
    (hash : List Nat → String) (compress : List Nat → List Nat)
    (gz : List (String × String) → List Nat) (sign : List Nat → Int → List Nat)
    (generated : Dependencies) (tree : List WalkEntry)
    (users : List User) (groups : List Group)
    (dataTar : List Nat) (pc : PackageBuild) :
    let res := emitPackage hash compress gz sign generated tree users groups dataTar pc
    res.pc.dataHash = hash (compress dataTar)
    ∧ (controlFields res.pc).getLast?
        = some (ControlLine.field "datahash" (hash (compress dataTar)))
    ∧ res.sections.getLast? = some (compress dataTar)
    ∧ res.artifact = res.sections.flatten := by
  refine ⟨?_, ?_, ?_, rfl⟩
  · rw [emitPackage_pc_eq]
  · show (controlFields _).getLast? = _
    rw [controlFields, List.getLast?_concat, emitPackage_pc_eq]
  · rw [emitPackage_sections_eq]
    simp

/-- C6: the final artifact written by `EmitPackage` is the concatenation,
in order, of an optional signature section, the control section and the
data section: with no signing key configured it is exactly
control ++ data (two sections, no signature section), and with a signing
key it is the detached signature over the exact control-section bytes,
then those same control-section bytes, then the data section. -/
theorem emitPackage_section_concatenation
    (hash : List Nat → String) (compress : List Nat → List Nat)
    (gz : List (String × String) → List Nat) (sign : List Nat → Int → List Nat)
    (generated : Dependencies) (tree : List WalkEntry)
    (users : List User) (groups : List Group)
    (dataTar : List Nat) (pc : PackageBuild) :
    let res := emitPackage hash compress gz sign generated tree users groups dataTar pc
    res.artifact = res.sections.flatten
    ∧ (pc.signingKey = "" →
      res.sections = [generateControlSection gz res.pc, compress dataTar])
    ∧ (pc.signingKey ≠ "" →
      res.sections
        = [sign (generateControlSection gz res.pc) pc.sourceDateEpoch,
           generateControlSection gz res.pc, compress dataTar]) := by
  have hkey :
      (emitPackage hash compress gz sign generated tree users groups dataTar pc).pc.signingKey
        = pc.signingKey := by
    rw [emitPackage_pc_eq]
  have hsde :
      (emitPackage hash compress gz sign generated tree users groups dataTar pc).pc.sourceDateEpoch
        = pc.sourceDateEpoch := by
    rw [emitPackage_pc_eq]
  have hsec := emitPackage_sections_eq hash compress gz sign generated tree users groups dataTar pc
  refine ⟨rfl, ?_, ?_⟩
  · intro hnone
    rw [hsec, if_neg (by simp [wantSignature, hkey, hnone])]
    rfl
  · intro hsome
    rw [hsec, if_pos (by simp [wantSignature, hkey]; exact hsome), hsde]
    rfl

/-- Witness for C6 at concrete inputs (no signing key configured). -/
theorem emitPackage_section_concatenation_witness :
    (emitPackage (fun _ => "h") (fun b => b) (fun _ => [7]) (fun _ _ => [9])
        ⟨[], [], [], [], 0⟩ [] [] [] [3, 4] samplePB).sections = [[7], [3, 4]] :=
  (emitPackage_section_concatenation (fun _ => "h") (fun b => b) (fun _ => [7])
    (fun _ _ => [9]) ⟨[], [], [], [], 0⟩ [] [] [] [3, 4] samplePB).2.1 rfl

theorem findBuildUser_of_absent (users : List User)
    (h : ∀ u ∈ users, u.userName ≠ "build") :
    findBuildUser users = ⟨"", 0⟩ := by
  unfold findBuildUser
  induction users with
  | nil => rfl
  | cons u us ih =>
      rw [List.foldl_cons, if_neg (h u (List.mem_cons_self u us))]
      exact ih (fun v hv => h v (List.mem_cons_of_mem u hv))

theorem findBuildGroup_of_absent (groups : List Group)
    (h : ∀ g ∈ groups, g.groupName ≠ "build") :
    findBuildGroup groups = ⟨"", 0⟩ := by
  unfold findBuildGroup
  induction groups with
  | nil => rfl
  | cons g gs ih =>
      rw [List.foldl_cons, if_neg (h g (List.mem_cons_self g gs))]
      exact ih (fun v hv => h v (List.mem_cons_of_mem g hv))

theorem applyRemap_single (b x : Nat) :
    applyRemap [(b, 0)] x = if x = b then 0 else x := by
  by_cases h : x = b
  · simp [applyRemap, List.lookup, h]
  · have hb : (x == b) = false := beq_eq_false_iff_ne.mpr h
    simp [applyRemap, List.lookup, hb, h]

/-- C7: the ownership remap table maps the numeric uid of the account
named "build" (the last such account, or the zero-value uid 0 when none
exists) to 0, and likewise for the gid of the group named "build"; a
file owned by the build uid/gid is emitted owned by 0/0 while any other
numeric id is left unchanged; with no "build" account the table is the
no-op `0 → 0`; and the remap tables are passed only to the data
section's tar context — the control section's tar context carries none
(it overrides all ownership to 0/0 root/root instead). -/
theorem build_account_remap (users : List User) (groups : List Group)
    (uid gid x y : Nat) (e : Int)
    (hash : List Nat → String) (compress : List Nat → List Nat)
    (gz : List (String × String) → List Nat) (sign : List Nat → Int → List Nat)
    (generated : Dependencies) (tree : List WalkEntry)
    (dataTar : List Nat) (pc : PackageBuild) :
    (applyRemap (buildRemapUIDs users) uid
        = if uid = (findBuildUser users).uid then 0 else uid)
    ∧ (applyRemap (buildRemapGIDs groups) gid
        = if gid = (findBuildGroup groups).gid then 0 else gid)
    ∧ ((∀ u ∈ users, u.userName ≠ "build") →
        buildRemapUIDs users = [(0, 0)] ∧ applyRemap (buildRemapUIDs users) x = x)
    ∧ ((∀ g ∈ groups, g.groupName ≠ "build") →
        buildRemapGIDs groups = [(0, 0)] ∧ applyRemap (buildRemapGIDs groups) y = y)
    ∧ (emitPackage hash compress gz sign generated tree users groups dataTar pc).dataOpts
        = dataTarOpts pc.sourceDateEpoch (buildRemapUIDs users) (buildRemapGIDs groups)
    ∧ (controlTarOpts e).remapUIDs = [] ∧ (controlTarOpts e).remapGIDs = [] := by
  refine ⟨applyRemap_single _ _, applyRemap_single _ _, ?_, ?_, ?_, rfl, rfl⟩
  · intro h
    have hu : buildRemapUIDs users = [(0, 0)] := by
      unfold buildRemapUIDs
      rw [findBuildUser_of_absent users h]
    refine ⟨hu, ?_⟩
    rw [hu, applyRemap_single]
    split <;> simp_all
  · intro h
    have hg : buildRemapGIDs groups = [(0, 0)] := by
      unfold buildRemapGIDs
      rw [findBuildGroup_of_absent groups h]
    refine ⟨hg, ?_⟩
    rw [hg, applyRemap_single]
    split <;> simp_all
  · simp [emitPackage, emitDataSection, calculateInstalledSize_eq]

/-- C8: the control section is rendered with conditional omissions — the
`builddate` line appears iff the fixed timestamp is non-zero, the
`provider_priority` line iff the value is set (non-zero value, the Go
template's truthiness), the `triggers` line iff trigger paths exist, the
`datahash` line is the final field, and each of the seven scriptlet
files is present in the control section iff its body is non-empty. -/
theorem control_section_conditional_omissions (pc : PackageBuild) :
    ((controlFields pc).countP (hasKey "builddate")
        = if pc.sourceDateEpoch ≠ 0 then 1 else 0)
    ∧ ((controlFields pc).countP (hasKey "provider_priority")
        = if pc.dependencies.providerPriority ≠ 0 then 1 else 0)
    ∧ ((controlFields pc).countP (hasKey "triggers")
        = if pc.scriptlets.trigger.paths ≠ [] then 1 else 0)
    ∧ (controlFields pc).getLast? = some (ControlLine.field "datahash" pc.dataHash)
    ∧ ((".trigger" ∈ (controlFS pc).map Prod.fst) ↔ pc.scriptlets.trigger.script ≠ "")
    ∧ ((".pre-install" ∈ (controlFS pc).map Prod.fst) ↔ pc.scriptlets.preInstall ≠ "")
    ∧ ((".post-install" ∈ (controlFS pc).map Prod.fst) ↔ pc.scriptlets.postInstall ≠ "")
    ∧ ((".pre-deinstall" ∈ (controlFS pc).map Prod.fst) ↔ pc.scriptlets.preDeinstall ≠ "")
    ∧ ((".post-deinstall" ∈ (controlFS pc).map Prod.fst) ↔ pc.scriptlets.postDeinstall ≠ "")
    ∧ ((".pre-upgrade" ∈ (controlFS pc).map Prod.fst) ↔ pc.scriptlets.preUpgrade ≠ "")
    ∧ ((".post-upgrade" ∈ (controlFS pc).map Prod.fst) ↔ pc.scriptlets.postUpgrade ≠ "") := by
  refine ⟨?_, ?_, ?_, ?_, ?_, ?_, ?_, ?_, ?_, ?_, ?_⟩
  · simp only [controlFields, List.countP_append]
    rw [countP_map_zero _ _ _ (fun a => by simp [hasKey]),
      countP_map_zero _ _ _ (fun a => by simp [hasKey]),
      countP_map_zero _ _ _ (fun a => by simp [hasKey]),
      countP_map_zero _ _ _ (fun a => by simp [hasKey]),
      countP_map_zero _ _ _ (fun a => by simp [hasKey])]
    split_ifs <;> simp [hasKey, List.countP_cons]
  · simp only [controlFields, List.countP_append]
    rw [countP_map_zero _ _ _ (fun a => by simp [hasKey]),
      countP_map_zero _ _ _ (fun a => by simp [hasKey]),
      countP_map_zero _ _ _ (fun a => by simp [hasKey]),
      countP_map_zero _ _ _ (fun a => by simp [hasKey]),
      countP_map_zero _ _ _ (fun a => by simp [hasKey])]
    split_ifs <;> simp [hasKey, List.countP_cons]
  · simp only [controlFields, List.countP_append]
    rw [countP_map_zero _ _ _ (fun a => by simp [hasKey]),
      countP_map_zero _ _ _ (fun a => by simp [hasKey]),
      countP_map_zero _ _ _ (fun a => by simp [hasKey]),
      countP_map_zero _ _ _ (fun a => by simp [hasKey]),
      countP_map_zero _ _ _ (fun a => by simp [hasKey])]
    split_ifs <;> simp [hasKey, List.countP_cons]
  · rw [controlFields, List.getLast?_concat]
  · simp [controlFS, mem_map_fst_ite]
  · simp [controlFS, mem_map_fst_ite]
  · simp [controlFS, mem_map_fst_ite]
  · simp [controlFS, mem_map_fst_ite]
  · simp [controlFS, mem_map_fst_ite]
  · simp [controlFS, mem_map_fst_ite]
  · simp [controlFS, mem_map_fst_ite]

/-- C9: the data-section compressor's worker thread count is exactly
`min(GOMAXPROCS(0), 8)` — the package-level `pgzipThreads`, computed once
per process from the ambient parallelism — and it is passed to the
compressor together with the fixed block size `1 << 20` = 2^20 bytes for
parallel chunk compression. -/
theorem data_compressor_concurrency (g : Int) :
    (emitDataSectionConcurrency g).blockSize = 2 ^ 20
    ∧ (emitDataSectionConcurrency g).threads = pgzipThreads g
    ∧ pgzipThreads g = Min.min g 8 := by
  refine ⟨by simp [emitDataSectionConcurrency, Nat.shiftLeft_eq], rfl, ?_⟩
  unfold pgzipThreads Melange.min
  rw [min_def]
  split_ifs <;> omega

/-- A string containing no newline character. -/
def noNewline (s : String) : Prop :=
  s.data.count '\x0a' = 0

/-- C10: with `CreateBuildLog` unset, `AppendBuildLog` returns success
immediately with no file operation at all; with it set (and the open
succeeding), it opens exactly `packages.log` in the given directory with
append-create semantics and performs exactly one write, of the single
pipe-delimited line `arch|originName|packageName|version-rEpoch`
terminated by a newline (a single line provided the fields themselves
contain no newline). -/
theorem appendBuildLog_frame (pc : PackageBuild) (dir : String)
    (openOk writeOk : Bool) :
    (pc.createBuildLog = false →
      appendBuildLog pc dir openOk writeOk = ([], Except.ok ()))
    ∧ (pc.createBuildLog = true →
      openOk = true →
      (appendBuildLog pc dir openOk writeOk).1
        = [FileOp.openAppendCreate (filepathJoin dir "packages.log"),
           FileOp.write (pc.arch ++ "|" ++ pc.originName ++ "|" ++ pc.packageName ++ "|"
             ++ pc.version ++ "-r" ++ toString pc.epoch ++ "\x0a")]
      ∧ (appendBuildLog pc dir openOk writeOk).1.countP
            (fun op => op matches FileOp.write _) = 1
      ∧ (pc.arch ++ "|" ++ pc.originName ++ "|" ++ pc.packageName ++ "|"
          ++ pc.version ++ "-r" ++ toString pc.epoch ++ "\x0a").data.getLast?
          = some '\x0a'
      ∧ (noNewline pc.arch → noNewline pc.originName → noNewline pc.packageName →
          noNewline pc.version → noNewline (toString pc.epoch) →
          (pc.arch ++ "|" ++ pc.originName ++ "|" ++ pc.packageName ++ "|"
            ++ pc.version ++ "-r" ++ toString pc.epoch ++ "\x0a").data.count '\x0a' = 1)) := by
  constructor
  · intro h
    simp [appendBuildLog, h]
  · intro h ho
    subst ho
    refine ⟨by simp [appendBuildLog, h], by simp [appendBuildLog, h], ?_, ?_⟩
    · rw [String.data_append,
        show ("\x0a" : String).data = ['\x0a'] from rfl, List.getLast?_concat]
    · intro h1 h2 h3 h4 h5
      unfold noNewline at h1 h2 h3 h4 h5
      simp only [String.data_append, List.count_append, h1, h2, h3, h4, h5]
      decide

/-- Witness for C10 at a concrete input. -/
theorem appendBuildLog_frame_witness :
    (appendBuildLog samplePB "out" true true).1.countP
      (fun op => op matches FileOp.write _) = 1 :=
  ((appendBuildLog_frame samplePB "out" true true).2 rfl rfl).2.1

/-- Witness for C7 at a concrete input: the build account's uid 1000 is
remapped to 0, uid 1001 is unchanged, and with no build account uid 5 is
unchanged. -/
theorem build_account_remap_witness :
    applyRemap (buildRemapUIDs [⟨"build", 1000⟩]) 1000 = 0
    ∧ applyRemap (buildRemapUIDs [⟨"build", 1000⟩]) 1001 = 1001
    ∧ applyRemap (buildRemapUIDs [⟨"alice", 1000⟩]) 5 = 5 := by
  refine ⟨?_, ?_, ?_⟩
  · rw [(build_account_remap [⟨"build", 1000⟩] [] 1000 0 0 0 0
      (fun _ => "") (fun b => b) (fun _ => []) (fun _ _ => [])
      ⟨[], [], [], [], 0⟩ [] [] samplePB).1]
    decide
  · rw [(build_account_remap [⟨"build", 1000⟩] [] 1001 0 0 0 0
      (fun _ => "") (fun b => b) (fun _ => []) (fun _ _ => [])
      ⟨[], [], [], [], 0⟩ [] [] samplePB).1]
    decide
  · exact ((build_account_remap [⟨"alice", 1000⟩] [] 0 0 5 0 0
      (fun _ => "") (fun b => b) (fun _ => []) (fun _ _ => [])
      ⟨[], [], [], [], 0⟩ [] [] samplePB).2.2.1 (by decide)).2

end Melange
